import Mathlib

/-!
Verification of the change-detection and delivery pipeline of the
twitter-monitor repository (src/app.py).

The embedding models the pure data flow of the Python functions:
network calls become explicit inputs (the already-fetched responses),
the global dict last_tweets becomes an explicit association list
threaded through the functions, and Telegram sends are collected into
a list of emitted notifications in send order.
-/

/-- A fetched tweet dict as read by classify_tweets and
check_new_tweets (src/app.py:134-153, 252-292): hasRetweetedTweet is
the truthiness of tweet.get("retweeted_tweet"), isReply that of
tweet.get("isReply"); id, text, url, createdAt are the corresponding
string fields. -/
structure Tweet where
  id : String
  isReply : Bool
  hasRetweetedTweet : Bool
  text : String
  url : String
  createdAt : String
deriving DecidableEq, Repr

/-- The data payload of a successful user-info response as read by
check_new_tweets (src/app.py:197-203): name is user_data.get("name")
when present, pinnedTweetIds is user_data.get("pinnedTweetIds", []). -/
structure Profile where
  name : Option String
  pinnedTweetIds : List String
deriving DecidableEq, Repr

/-- The dict returned by classify_tweets (src/app.py:153), in its
insertion order original, reply, retweet. -/
structure Classified where
  original : Option Tweet
  reply : Option Tweet
  retweet : Option Tweet
deriving DecidableEq, Repr

/-- The loop of classify_tweets (src/app.py:140-151): the three
accumulators start as None; each tweet goes down the if/elif chain and
fills its category slot only when that slot is still None; the loop
breaks once all three slots are filled. -/
def classifyAux : List Tweet → Option Tweet → Option Tweet → Option Tweet → Classified
  | [], original, reply, retweet => ⟨original, reply, retweet⟩
  | t :: rest, original, reply, retweet =>
    let acc :=
      if t.hasRetweetedTweet then
        (original, reply, if retweet.isNone then some t else retweet)
      else if t.isReply then
        (original, if reply.isNone then some t else reply, retweet)
      else
        (if original.isNone then some t else original, reply, retweet)
    if acc.1.isSome && acc.2.1.isSome && acc.2.2.isSome then
      ⟨acc.1, acc.2.1, acc.2.2⟩
    else
      classifyAux rest acc.1 acc.2.1 acc.2.2

/-- classify_tweets (src/app.py:134-153). -/
def classify_tweets (tweets : List Tweet) : Classified :=
  classifyAux tweets none none none

/-- Access the classified dict by the slot-name string used when
check_new_tweets iterates classified.items() (src/app.py:252). -/
def Classified.slot (c : Classified) (ttype : String) : Option Tweet :=
  if ttype = "original" then c.original
  else if ttype = "reply" then c.reply
  else if ttype = "retweet" then c.retweet
  else none

/-- The messages sent through send_telegram by check_new_tweets, by
template kind with the fields interpolated into each template
(src/app.py:218-229, 284-289). -/
inductive Notification where
  | pinnedChanged (username userName newPinned : String)
  | pinnedCleared (username userName : String)
  | newTweet (username userName ttype id text url createdAt : String)
deriving DecidableEq, Repr

/-- True for the two pinned-slot templates. -/
def Notification.isPinnedNotif : Notification → Bool
  | .pinnedChanged _ _ _ => true
  | .pinnedCleared _ _ => true
  | .newTweet _ _ _ _ _ _ _ => false

/-- True for the new-tweet template. -/
def Notification.isNewTweetNotif : Notification → Bool
  | .newTweet _ _ _ _ _ _ _ => true
  | _ => false

/-- True for a new-tweet message of the given category slot. -/
def Notification.isNewTweetOfType (c : String) : Notification → Bool
  | .newTweet _ _ ttype _ _ _ _ => ttype = c
  | _ => false

/-- True when the message references the given item id: the
pinned-changed template carries the new pinned id, the new-tweet
template the tweet id; the pinned-cleared template carries none. -/
def Notification.mentionsId (p : String) : Notification → Bool
  | .pinnedChanged _ _ newPinned => newPinned = p
  | .pinnedCleared _ _ => false
  | .newTweet _ _ _ id _ _ _ => id = p

/-- The global dict last_tweets (src/app.py:48), as an
insertion-ordered association list from composite key to last-seen id
(the stored value is None exactly when a pinned slot was recorded with
no pinned tweet). -/
abbrev StateMap := List (String × Option String)

/-- Dict read: last_tweets[k] when present, none when k not in
last_tweets. -/
def lookupKey : StateMap → String → Option (Option String)
  | [], _ => none
  | (k', v) :: rest, k => if k' = k then some v else lookupKey rest k

/-- Dict write last_tweets[k] = v: replace the entry in place when the
key exists, append it otherwise. -/
def setKey : StateMap → String → Option String → StateMap
  | [], k, v => [(k, v)]
  | (k', v') :: rest, k, v =>
    if k' = k then (k, v) :: rest else (k', v') :: setKey rest k v

/-- The composite dedup key built by string interpolation:
f-string of username, underscore, slot (src/app.py:204, 257). -/
def stateKey (username slot : String) : String := (username ++ "_") ++ slot

/-- Step (a) of check_new_tweets (src/app.py:197-230): compare the
fetched pinned id against the stored pinned slot; prime a missing
slot silently, and on a difference update the slot and emit exactly
one pinned message, chosen by the truthiness of the new id. Runs only
when the user-info fetch reported status success. -/
def pinnedStep (username userName : String) (currentPinned : Option String)
    (s : StateMap) : StateMap × List Notification :=
  match lookupKey s (stateKey username "pinned") with
  | none => (setKey s (stateKey username "pinned") currentPinned, [])
  | some old =>
    if old = currentPinned then (s, [])
    else
      match currentPinned with
      | some p =>
        if p = "" then
          (setKey s (stateKey username "pinned") currentPinned,
            [Notification.pinnedCleared username userName])
        else
          (setKey s (stateKey username "pinned") currentPinned,
            [Notification.pinnedChanged username userName p])
      | none =>
        (setKey s (stateKey username "pinned") currentPinned,
          [Notification.pinnedCleared username userName])

/-- One iteration of the loop over classified.items()
(src/app.py:252-292): skip an absent slot, prime a missing key
silently, silently update a changed slot whose id equals the current
pinned id, and otherwise update the slot and emit one new-tweet
message with the text truncated to 200 characters. -/
def slotStep (username userName : String) (currentPinned : Option String)
    (ttype : String) (tw : Option Tweet) (s : StateMap) :
    StateMap × List Notification :=
  match tw with
  | none => (s, [])
  | some t =>
    match lookupKey s (stateKey username ttype) with
    | none => (setKey s (stateKey username ttype) (some t.id), [])
    | some stored =>
      if stored = some t.id then (s, [])
      else if some t.id = currentPinned then
        (setKey s (stateKey username ttype) (some t.id), [])
      else
        (setKey s (stateKey username ttype) (some t.id),
          [Notification.newTweet username userName ttype t.id
            (t.text.take 200) t.url t.createdAt])

/-- The full loop over classified.items() in its dict insertion order
original, reply, retweet (src/app.py:252-292). -/
def categorySteps (username userName : String) (currentPinned : Option String)
    (c : Classified) (s : StateMap) : StateMap × List Notification :=
  let r1 := slotStep username userName currentPinned "original" c.original s
  let r2 := slotStep username userName currentPinned "reply" c.reply r1.1
  let r3 := slotStep username userName currentPinned "retweet" c.retweet r2.1
  (r3.1, r1.2 ++ r2.2 ++ r3.2)

/-- check_new_tweets (src/app.py:186-296) as a pure function: the two
inputs userResp and tweetsResp hold the payloads of the two fetches,
with none modelling any non-success status; the result is the updated
last_tweets store together with the notifications sent, in send
order. A non-success user-info response leaves userName at the handle
and currentPinned at none and skips the pinned step; a non-success or
empty tweets response returns after the pinned step. -/
def check_new_tweets (username : String) (userResp : Option Profile)
    (tweetsResp : Option (List Tweet)) (s : StateMap) :
    StateMap × List Notification :=
  let userName := match userResp with
    | some p => p.name.getD username
    | none => username
  let currentPinned : Option String := match userResp with
    | some p => p.pinnedTweetIds.head?
    | none => none
  let r1 := match userResp with
    | some _ => pinnedStep username userName currentPinned s
    | none => (s, [])
  match tweetsResp with
  | none => r1
  | some tweets =>
    if tweets.isEmpty then r1
    else
      let r2 := categorySteps username userName currentPinned
        (classify_tweets tweets) r1.1
      (r2.1, r1.2 ++ r2.2)

/-- Truthiness-faithful model of k.startswith(p) on strings, at the
level of character lists. -/
def strStartsWith (k p : String) : Bool := p.data.isPrefixOf k.data

/-- The state cleanup of the delete_user route (src/app.py:428-438):
remove from last_tweets every key that starts with the f-string of
username followed by an underscore. -/
def delete_user (username : String) (s : StateMap) : StateMap :=
  s.filter (fun kv => !(strStartsWith kv.1 (username ++ "_")))

/-- Outcome of one HTTP attempt inside send_telegram: transportError
models requests.exceptions.Timeout and any other exception raised by
the post or the json parse (all caught, slept on and retried), and
response ok models a parsed reply whose ok field has the given
truthiness. -/
inductive AttemptResult where
  | transportError
  | response (ok : Bool)
deriving DecidableEq, Repr

/-- The retry loop of send_telegram (src/app.py:168-184): attempt i
consults env i; a parsed reply returns its ok truthiness immediately
(no retry on a rejection), a transport error consumes one of the
retry attempts, and exhaustion returns false. -/
def sendLoop (env : Nat → AttemptResult) : Nat → Nat → Bool
  | _, 0 => false
  | i, n + 1 =>
    match env i with
    | .response ok => ok
    | .transportError => sendLoop env (i + 1) n

/-- send_telegram (src/app.py:155-184): returns false before any
network attempt when either credential is falsy in the config;
otherwise runs the retry loop with retry = 3. Every exception path of
the source is caught inside the loop, so the function is total and
Bool-valued by construction. -/
def send_telegram (botToken chatId : String) (env : Nat → AttemptResult) : Bool :=
  if botToken = "" || chatId = "" then false
  else sendLoop env 0 3

/-- A file-system operation performed on the state file. -/
inductive FsOp where
  | truncate
  | writeContent (s : String)
deriving DecidableEq, Repr

/-- Effect of one operation on the state-file content (none models an
absent file, some gives the content; truncation leaves the empty
content). -/
def applyFsOp : Option String → FsOp → Option String
  | _, .truncate => some ""
  | _, .writeContent s => some s

/-- The file content after running a sequence of operations. -/
def runFsOps (f : Option String) (ops : List FsOp) : Option String :=
  ops.foldl applyFsOp f

/-- save_state (src/app.py:83-90) at the file level: open(STATE_FILE,
"w") truncates the file in place, then json.dump writes the full
serialized mapping; there is no temporary file and no rename. A crash
is modelled as executing only a proper prefix of the operations. -/
def save_state_ops (serialized : String) : List FsOp :=
  [FsOp.truncate, FsOp.writeContent serialized]

/-! ### Basic lemmas about keys and the store -/

theorem string_append_cancel_left {u a b : String} (h : u ++ a = u ++ b) : a = b := by
  apply String.ext
  have h2 : (u ++ a).data = (u ++ b).data := by rw [h]
  rw [String.data_append, String.data_append] at h2
  exact List.append_cancel_left h2

theorem stateKey_inj {u a b : String} (h : stateKey u a = stateKey u b) : a = b :=
  string_append_cancel_left h

theorem stateKey_ne {u a b : String} (h : a ≠ b) : stateKey u a ≠ stateKey u b :=
  fun hc => h (stateKey_inj hc)

theorem lookupKey_setKey_self (s : StateMap) (k : String) (v : Option String) :
    lookupKey (setKey s k v) k = some v := by
  induction s with
  | nil => simp [setKey, lookupKey]
  | cons kv rest ih =>
    obtain ⟨k', v'⟩ := kv
    by_cases h : k' = k <;> simp [setKey, lookupKey, h, ih]

theorem lookupKey_setKey_ne {q k : String} (h : q ≠ k) (s : StateMap) (v : Option String) :
    lookupKey (setKey s k v) q = lookupKey s q := by
  have hk : ¬(k = q) := fun hc => h hc.symm
  induction s with
  | nil => simp [setKey, lookupKey, hk]
  | cons kv rest ih =>
    obtain ⟨k', v'⟩ := kv
    by_cases h1 : k' = k
    · subst h1
      simp [setKey, lookupKey, hk]
    · by_cases h2 : k' = q <;> simp [setKey, lookupKey, h1, h2, ih, h]

/-! ### Lemmas about the pinned step -/

theorem pinnedStep_lookup_self (u n : String) (cp : Option String) (s : StateMap) :
    lookupKey (pinnedStep u n cp s).1 (stateKey u "pinned") = some cp := by
  unfold pinnedStep
  cases h : lookupKey s (stateKey u "pinned") with
  | none => simp [lookupKey_setKey_self]
  | some old =>
    by_cases he : old = cp
    · simp [he, h]
    · cases cp with
      | some p =>
        by_cases hp : p = ""
        · subst hp
          simp [he, lookupKey_setKey_self]
        · simp [he, hp, lookupKey_setKey_self]
      | none => simp [he, lookupKey_setKey_self]

theorem pinnedStep_lookup_other {u k : String} (h : k ≠ stateKey u "pinned")
    (n : String) (cp : Option String) (s : StateMap) :
    lookupKey (pinnedStep u n cp s).1 k = lookupKey s k := by
  unfold pinnedStep
  cases hl : lookupKey s (stateKey u "pinned") with
  | none => simp [lookupKey_setKey_ne h]
  | some old =>
    by_cases he : old = cp
    · simp [he]
    · cases cp with
      | some p =>
        by_cases hp : p = ""
        · subst hp
          simp [he, lookupKey_setKey_ne h]
        · simp [he, hp, lookupKey_setKey_ne h]
      | none => simp [he, lookupKey_setKey_ne h]

theorem pinnedStep_noop {u : String} {cp : Option String} {s : StateMap}
    (h : lookupKey s (stateKey u "pinned") = some cp) (n : String) :
    pinnedStep u n cp s = (s, []) := by
  unfold pinnedStep
  rw [h]
  simp

theorem pinnedStep_filter_newTweet (u n : String) (cp : Option String) (s : StateMap) :
    (pinnedStep u n cp s).2.filter (·.isNewTweetNotif) = [] := by
  unfold pinnedStep
  cases hl : lookupKey s (stateKey u "pinned") with
  | none => simp
  | some old =>
    by_cases he : old = cp
    · simp [he]
    · cases cp with
      | some p =>
        by_cases hp : p = ""
        · subst hp
          simp [he, Notification.isNewTweetNotif]
        · simp [he, hp, Notification.isNewTweetNotif]
      | none => simp [he, Notification.isNewTweetNotif]

theorem pinnedStep_filter_type (u n : String) (cp : Option String) (s : StateMap)
    (c : String) :
    (pinnedStep u n cp s).2.filter (Notification.isNewTweetOfType c) = [] := by
  unfold pinnedStep
  cases hl : lookupKey s (stateKey u "pinned") with
  | none => simp
  | some old =>
    by_cases he : old = cp
    · simp [he]
    · cases cp with
      | some p =>
        by_cases hp : p = ""
        · subst hp
          simp [he, Notification.isNewTweetOfType]
        · simp [he, hp, Notification.isNewTweetOfType]
      | none => simp [he, Notification.isNewTweetOfType]

/-! ### Lemmas about the per-category step -/

theorem slotStep_absent (u n : String) (cp : Option String) (ttype : String)
    (s : StateMap) : slotStep u n cp ttype none s = (s, []) := rfl

theorem slotStep_lookup_self (u n : String) (cp : Option String) (ttype : String)
    (t : Tweet) (s : StateMap) :
    lookupKey (slotStep u n cp ttype (some t) s).1 (stateKey u ttype) = some (some t.id) := by
  unfold slotStep
  cases h : lookupKey s (stateKey u ttype) with
  | none => simp [lookupKey_setKey_self]
  | some stored =>
    by_cases he : stored = some t.id
    · simp [he, h]
    · by_cases hp : some t.id = cp
      · subst hp
        simp [he, lookupKey_setKey_self]
      · simp [he, hp, lookupKey_setKey_self]

theorem slotStep_lookup_other {u k : String} {ttype : String} (h : k ≠ stateKey u ttype)
    (n : String) (cp : Option String) (tw : Option Tweet) (s : StateMap) :
    lookupKey (slotStep u n cp ttype tw s).1 k = lookupKey s k := by
  cases tw with
  | none => rfl
  | some t =>
    unfold slotStep
    cases hl : lookupKey s (stateKey u ttype) with
    | none => simp [lookupKey_setKey_ne h]
    | some stored =>
      by_cases he : stored = some t.id
      · simp [he]
      · by_cases hp : some t.id = cp
        · subst hp
          simp [he, lookupKey_setKey_ne h]
        · simp [he, hp, lookupKey_setKey_ne h]

theorem slotStep_noop {u : String} {ttype : String} {t : Tweet} {s : StateMap}
    (h : lookupKey s (stateKey u ttype) = some (some t.id)) (n : String)
    (cp : Option String) : slotStep u n cp ttype (some t) s = (s, []) := by
  unfold slotStep
  rw [h]
  simp

theorem slotStep_prime {u : String} {ttype : String} {s : StateMap}
    (h : lookupKey s (stateKey u ttype) = none) (n : String) (cp : Option String)
    (tw : Option Tweet) : (slotStep u n cp ttype tw s).2 = [] := by
  cases tw with
  | none => rfl
  | some t =>
    unfold slotStep
    rw [h]

theorem slotStep_notify {u : String} {ttype : String} {t : Tweet} {s : StateMap}
    {w : Option String} {cp : Option String}
    (h : lookupKey s (stateKey u ttype) = some w) (hw : w ≠ some t.id)
    (hcp : some t.id ≠ cp) (n : String) :
    slotStep u n cp ttype (some t) s =
      (setKey s (stateKey u ttype) (some t.id),
        [Notification.newTweet u n ttype t.id (t.text.take 200) t.url t.createdAt]) := by
  unfold slotStep
  rw [h]
  have hw2 : ¬(w = some t.id) := hw
  have hcp2 : ¬(some t.id = cp) := hcp
  simp [hw2, hcp2]

theorem slotStep_filter_pinnedNotif (u n : String) (cp : Option String)
    (ttype : String) (tw : Option Tweet) (s : StateMap) :
    (slotStep u n cp ttype tw s).2.filter (·.isPinnedNotif) = [] := by
  cases tw with
  | none => rfl
  | some t =>
    unfold slotStep
    cases hl : lookupKey s (stateKey u ttype) with
    | none => simp
    | some stored =>
      by_cases he : stored = some t.id
      · simp [he]
      · by_cases hp : some t.id = cp
        · subst hp
          simp [he]
        · simp [he, hp, Notification.isPinnedNotif]

theorem slotStep_filter_mentions {cp : Option String} {p : String}
    (hcp : cp = some p) (u n : String) (ttype : String) (tw : Option Tweet)
    (s : StateMap) :
    (slotStep u n cp ttype tw s).2.filter (·.mentionsId p) = [] := by
  subst hcp
  cases tw with
  | none => rfl
  | some t =>
    unfold slotStep
    cases hl : lookupKey s (stateKey u ttype) with
    | none => simp
    | some stored =>
      by_cases he : stored = some t.id
      · simp [he]
      · by_cases hp : some t.id = some p
        · have hid : t.id = p := by injection hp
          subst hid
          simp [he]
        · have hid : ¬(t.id = p) := fun hc => hp (by rw [hc])
          simp [he, hp, Notification.mentionsId, hid]

theorem slotStep_filter_type_ne {ttype c : String} (h : ttype ≠ c)
    (u n : String) (cp : Option String) (tw : Option Tweet) (s : StateMap) :
    (slotStep u n cp ttype tw s).2.filter (Notification.isNewTweetOfType c) = [] := by
  cases tw with
  | none => rfl
  | some t =>
    unfold slotStep
    cases hl : lookupKey s (stateKey u ttype) with
    | none => simp
    | some stored =>
      by_cases he : stored = some t.id
      · simp [he]
      · by_cases hp : some t.id = cp
        · subst hp
          simp [he]
        · simp [he, hp, Notification.isNewTweetOfType, h]

/-! ### Lemmas about the full category loop -/

theorem categorySteps_lookup_original (u n : String) (cp : Option String)
    (c : Classified) (s : StateMap) :
    lookupKey (categorySteps u n cp c s).1 (stateKey u "original") =
      (match c.original with
        | some t => some (some t.id)
        | none => lookupKey s (stateKey u "original")) := by
  simp only [categorySteps]
  rw [slotStep_lookup_other (stateKey_ne (by decide)),
    slotStep_lookup_other (stateKey_ne (by decide))]
  cases ho : c.original with
  | none => rw [slotStep_absent]
  | some t => exact slotStep_lookup_self u n cp "original" t s

theorem categorySteps_lookup_reply (u n : String) (cp : Option String)
    (c : Classified) (s : StateMap) :
    lookupKey (categorySteps u n cp c s).1 (stateKey u "reply") =
      (match c.reply with
        | some t => some (some t.id)
        | none => lookupKey s (stateKey u "reply")) := by
  simp only [categorySteps]
  rw [slotStep_lookup_other (stateKey_ne (by decide))]
  cases hr : c.reply with
  | none =>
    rw [slotStep_absent, slotStep_lookup_other (stateKey_ne (by decide))]
  | some t => exact slotStep_lookup_self u n cp "reply" t _

theorem categorySteps_lookup_retweet (u n : String) (cp : Option String)
    (c : Classified) (s : StateMap) :
    lookupKey (categorySteps u n cp c s).1 (stateKey u "retweet") =
      (match c.retweet with
        | some t => some (some t.id)
        | none => lookupKey s (stateKey u "retweet")) := by
  simp only [categorySteps]
  cases hr : c.retweet with
  | none =>
    rw [slotStep_absent, slotStep_lookup_other (stateKey_ne (by decide)),
      slotStep_lookup_other (stateKey_ne (by decide))]
  | some t => exact slotStep_lookup_self u n cp "retweet" t _

theorem categorySteps_lookup_other {u k : String}
    (h1 : k ≠ stateKey u "original") (h2 : k ≠ stateKey u "reply")
    (h3 : k ≠ stateKey u "retweet") (n : String) (cp : Option String)
    (c : Classified) (s : StateMap) :
    lookupKey (categorySteps u n cp c s).1 k = lookupKey s k := by
  simp only [categorySteps]
  rw [slotStep_lookup_other h3, slotStep_lookup_other h2, slotStep_lookup_other h1]

theorem categorySteps_noop {u : String} {c : Classified} {s : StateMap}
    (h1 : ∀ t, c.original = some t → lookupKey s (stateKey u "original") = some (some t.id))
    (h2 : ∀ t, c.reply = some t → lookupKey s (stateKey u "reply") = some (some t.id))
    (h3 : ∀ t, c.retweet = some t → lookupKey s (stateKey u "retweet") = some (some t.id))
    (n : String) (cp : Option String) :
    categorySteps u n cp c s = (s, []) := by
  simp only [categorySteps]
  have e1 : slotStep u n cp "original" c.original s = (s, []) := by
    cases ho : c.original with
    | none => rfl
    | some t => exact slotStep_noop (h1 t ho) n cp
  rw [e1]
  have e2 : slotStep u n cp "reply" c.reply s = (s, []) := by
    cases hr : c.reply with
    | none => rfl
    | some t => exact slotStep_noop (h2 t hr) n cp
  rw [e2]
  have e3 : slotStep u n cp "retweet" c.retweet s = (s, []) := by
    cases hr : c.retweet with
    | none => rfl
    | some t => exact slotStep_noop (h3 t hr) n cp
  rw [e3]
  rfl

theorem categorySteps_filter_pinnedNotif (u n : String) (cp : Option String)
    (c : Classified) (s : StateMap) :
    (categorySteps u n cp c s).2.filter (·.isPinnedNotif) = [] := by
  simp only [categorySteps]
  rw [List.filter_append, List.filter_append, slotStep_filter_pinnedNotif,
    slotStep_filter_pinnedNotif, slotStep_filter_pinnedNotif]
  rfl

theorem categorySteps_filter_mentions {cp : Option String} {p : String}
    (hcp : cp = some p) (u n : String) (c : Classified) (s : StateMap) :
    (categorySteps u n cp c s).2.filter (·.mentionsId p) = [] := by
  simp only [categorySteps]
  rw [List.filter_append, List.filter_append, slotStep_filter_mentions hcp,
    slotStep_filter_mentions hcp, slotStep_filter_mentions hcp]
  rfl

/-! ### Characterization of the classifier -/

theorem classifyAux_retweet_some (l : List Tweet) (o r : Option Tweet) (x : Tweet) :
    (classifyAux l o r (some x)).retweet = some x := by
  induction l generalizing o r with
  | nil => rfl
  | cons t rest ih =>
    simp only [classifyAux]
    by_cases h1 : t.hasRetweetedTweet <;> by_cases h2 : t.isReply <;>
      cases o <;> cases r <;> simp [h1, h2, ih]

theorem classifyAux_reply_some (l : List Tweet) (o rt : Option Tweet) (x : Tweet) :
    (classifyAux l o (some x) rt).reply = some x := by
  induction l generalizing o rt with
  | nil => rfl
  | cons t rest ih =>
    simp only [classifyAux]
    by_cases h1 : t.hasRetweetedTweet <;> by_cases h2 : t.isReply <;>
      cases o <;> cases rt <;> simp [h1, h2, ih]

theorem classifyAux_original_some (l : List Tweet) (r rt : Option Tweet) (x : Tweet) :
    (classifyAux l (some x) r rt).original = some x := by
  induction l generalizing r rt with
  | nil => rfl
  | cons t rest ih =>
    simp only [classifyAux]
    by_cases h1 : t.hasRetweetedTweet <;> by_cases h2 : t.isReply <;>
      cases r <;> cases rt <;> simp [h1, h2, ih]

theorem classifyAux_retweet_none (l : List Tweet) (o r : Option Tweet) :
    (classifyAux l o r none).retweet = l.find? (fun t => t.hasRetweetedTweet) := by
  induction l generalizing o r with
  | nil => rfl
  | cons t rest ih =>
    simp only [classifyAux]
    by_cases h1 : t.hasRetweetedTweet <;> by_cases h2 : t.isReply <;>
      cases o <;> cases r <;>
        simp [h1, h2, ih, List.find?, classifyAux_retweet_some]

theorem classifyAux_reply_none (l : List Tweet) (o rt : Option Tweet) :
    (classifyAux l o none rt).reply =
      l.find? (fun t => !t.hasRetweetedTweet && t.isReply) := by
  induction l generalizing o rt with
  | nil => rfl
  | cons t rest ih =>
    simp only [classifyAux]
    by_cases h1 : t.hasRetweetedTweet <;> by_cases h2 : t.isReply <;>
      cases o <;> cases rt <;>
        simp [h1, h2, ih, List.find?, classifyAux_reply_some]

theorem classifyAux_original_none (l : List Tweet) (r rt : Option Tweet) :
    (classifyAux l none r rt).original =
      l.find? (fun t => !t.hasRetweetedTweet && !t.isReply) := by
  induction l generalizing r rt with
  | nil => rfl
  | cons t rest ih =>
    simp only [classifyAux]
    by_cases h1 : t.hasRetweetedTweet <;> by_cases h2 : t.isReply <;>
      cases r <;> cases rt <;>
        simp [h1, h2, ih, List.find?, classifyAux_original_some]

theorem classify_tweets_retweet (l : List Tweet) :
    (classify_tweets l).retweet = l.find? (fun t => t.hasRetweetedTweet) :=
  classifyAux_retweet_none l none none

theorem classify_tweets_reply (l : List Tweet) :
    (classify_tweets l).reply = l.find? (fun t => !t.hasRetweetedTweet && t.isReply) :=
  classifyAux_reply_none l none none

theorem classify_tweets_original (l : List Tweet) :
    (classify_tweets l).original =
      l.find? (fun t => !t.hasRetweetedTweet && !t.isReply) :=
  classifyAux_original_none l none none

theorem classified_eq_of_comps {a b : Classified} (h1 : a.original = b.original)
    (h2 : a.reply = b.reply) (h3 : a.retweet = b.retweet) : a = b := by
  cases a
  cases b
  simp_all

/-! ### Unfolding lemmas for check_new_tweets -/

theorem check_tweets_fail (u : String) (ur : Option Profile) (s : StateMap) :
    check_new_tweets u ur none s =
      (match ur with
        | some p => pinnedStep u (p.name.getD u) p.pinnedTweetIds.head? s
        | none => (s, [])) := by
  cases ur <;> rfl

theorem check_tweets_empty (u : String) (ur : Option Profile) (s : StateMap)
    {tweets : List Tweet} (h : tweets.isEmpty = true) :
    check_new_tweets u ur (some tweets) s =
      (match ur with
        | some p => pinnedStep u (p.name.getD u) p.pinnedTweetIds.head? s
        | none => (s, [])) := by
  cases ur <;> simp [check_new_tweets, h]

theorem check_some_some (u : String) (p : Profile) {tweets : List Tweet}
    (h : tweets.isEmpty = false) (s : StateMap) :
    check_new_tweets u (some p) (some tweets) s =
      ((categorySteps u (p.name.getD u) p.pinnedTweetIds.head?
          (classify_tweets tweets)
          (pinnedStep u (p.name.getD u) p.pinnedTweetIds.head? s).1).1,
        (pinnedStep u (p.name.getD u) p.pinnedTweetIds.head? s).2 ++
          (categorySteps u (p.name.getD u) p.pinnedTweetIds.head?
            (classify_tweets tweets)
            (pinnedStep u (p.name.getD u) p.pinnedTweetIds.head? s).1).2) := by
  simp [check_new_tweets, h]

theorem check_none_some (u : String) {tweets : List Tweet}
    (h : tweets.isEmpty = false) (s : StateMap) :
    check_new_tweets u none (some tweets) s =
      categorySteps u u none (classify_tweets tweets) s := by
  simp [check_new_tweets, h]

/-! ### The state reached by one check settles every observed slot -/

theorem check_lookup_pinned (u : String) (p : Profile) (tr : Option (List Tweet))
    (s : StateMap) :
    lookupKey (check_new_tweets u (some p) tr s).1 (stateKey u "pinned") =
      some p.pinnedTweetIds.head? := by
  cases tr with
  | none =>
    rw [check_tweets_fail]
    exact pinnedStep_lookup_self u (p.name.getD u) p.pinnedTweetIds.head? s
  | some tweets =>
    cases he : tweets.isEmpty with
    | true =>
      rw [check_tweets_empty u (some p) s he]
      exact pinnedStep_lookup_self u (p.name.getD u) p.pinnedTweetIds.head? s
    | false =>
      rw [check_some_some u p he s]
      rw [categorySteps_lookup_other (stateKey_ne (by decide))
        (stateKey_ne (by decide)) (stateKey_ne (by decide))]
      exact pinnedStep_lookup_self u (p.name.getD u) p.pinnedTweetIds.head? s

theorem check_lookup_original (u : String) (ur : Option Profile)
    {tweets : List Tweet} (he : tweets.isEmpty = false) (s : StateMap) {t : Tweet}
    (hcl : (classify_tweets tweets).original = some t) :
    lookupKey (check_new_tweets u ur (some tweets) s).1 (stateKey u "original") =
      some (some t.id) := by
  cases ur with
  | none =>
    rw [check_none_some u he s, categorySteps_lookup_original, hcl]
  | some p =>
    rw [check_some_some u p he s, categorySteps_lookup_original, hcl]

theorem check_lookup_reply (u : String) (ur : Option Profile)
    {tweets : List Tweet} (he : tweets.isEmpty = false) (s : StateMap) {t : Tweet}
    (hcl : (classify_tweets tweets).reply = some t) :
    lookupKey (check_new_tweets u ur (some tweets) s).1 (stateKey u "reply") =
      some (some t.id) := by
  cases ur with
  | none =>
    rw [check_none_some u he s, categorySteps_lookup_reply, hcl]
  | some p =>
    rw [check_some_some u p he s, categorySteps_lookup_reply, hcl]

theorem check_lookup_retweet (u : String) (ur : Option Profile)
    {tweets : List Tweet} (he : tweets.isEmpty = false) (s : StateMap) {t : Tweet}
    (hcl : (classify_tweets tweets).retweet = some t) :
    lookupKey (check_new_tweets u ur (some tweets) s).1 (stateKey u "retweet") =
      some (some t.id) := by
  cases ur with
  | none =>
    rw [check_none_some u he s, categorySteps_lookup_retweet, hcl]
  | some p =>
    rw [check_some_some u p he s, categorySteps_lookup_retweet, hcl]

/-! ### A check over already-settled state is a no-op -/

theorem check_noop (u : String) (ur : Option Profile) (tr : Option (List Tweet))
    (s : StateMap)
    (hpin : ∀ p, ur = some p →
      lookupKey s (stateKey u "pinned") = some p.pinnedTweetIds.head?)
    (ho : ∀ tweets t, tr = some tweets → tweets.isEmpty = false →
      (classify_tweets tweets).original = some t →
      lookupKey s (stateKey u "original") = some (some t.id))
    (hr : ∀ tweets t, tr = some tweets → tweets.isEmpty = false →
      (classify_tweets tweets).reply = some t →
      lookupKey s (stateKey u "reply") = some (some t.id))
    (hrt : ∀ tweets t, tr = some tweets → tweets.isEmpty = false →
      (classify_tweets tweets).retweet = some t →
      lookupKey s (stateKey u "retweet") = some (some t.id)) :
    check_new_tweets u ur tr s = (s, []) := by
  cases ur with
  | none =>
    cases tr with
    | none => rfl
    | some tweets =>
      cases he : tweets.isEmpty with
      | true => rw [check_tweets_empty u none s he]
      | false =>
        rw [check_none_some u he s]
        exact categorySteps_noop
          (fun t ht => ho tweets t rfl he ht)
          (fun t ht => hr tweets t rfl he ht)
          (fun t ht => hrt tweets t rfl he ht) u none
  | some p =>
    have hps : pinnedStep u (p.name.getD u) p.pinnedTweetIds.head? s = (s, []) :=
      pinnedStep_noop (hpin p rfl) (p.name.getD u)
    cases tr with
    | none =>
      rw [check_tweets_fail]
      exact hps
    | some tweets =>
      cases he : tweets.isEmpty with
      | true =>
        rw [check_tweets_empty u (some p) s he]
        exact hps
      | false =>
        rw [check_some_some u p he s, hps]
        have hcs := categorySteps_noop
          (fun t ht => ho tweets t rfl he ht)
          (fun t ht => hr tweets t rfl he ht)
          (fun t ht => hrt tweets t rfl he ht)
          (p.name.getD u) p.pinnedTweetIds.head?
        rw [show ((s, ([] : List Notification))).1 = s from rfl, hcs]
        rfl

/-! ### Priming and change forms of the steps -/

theorem pinnedStep_prime {u : String} {s : StateMap}
    (h : lookupKey s (stateKey u "pinned") = none) (n : String)
    (cp : Option String) :
    pinnedStep u n cp s = (setKey s (stateKey u "pinned") cp, []) := by
  unfold pinnedStep
  rw [h]

theorem pinnedStep_changed {u : String} {s : StateMap} {oldv : Option String}
    {P : String} (hold : lookupKey s (stateKey u "pinned") = some oldv)
    (hne : oldv ≠ some P) (hP : P ≠ "") (n : String) :
    pinnedStep u n (some P) s =
      (setKey s (stateKey u "pinned") (some P),
        [Notification.pinnedChanged u n P]) := by
  unfold pinnedStep
  rw [hold]
  simp [hne, hP]

theorem categorySteps_prime {u : String} {s : StateMap}
    (h1 : lookupKey s (stateKey u "original") = none)
    (h2 : lookupKey s (stateKey u "reply") = none)
    (h3 : lookupKey s (stateKey u "retweet") = none)
    (n : String) (cp : Option String) (c : Classified) :
    (categorySteps u n cp c s).2 = [] := by
  simp only [categorySteps]
  have h2a : lookupKey (slotStep u n cp "original" c.original s).1
      (stateKey u "reply") = none := by
    rw [slotStep_lookup_other (stateKey_ne (by decide))]
    exact h2
  have h3a : lookupKey
      (slotStep u n cp "reply" c.reply
        (slotStep u n cp "original" c.original s).1).1
      (stateKey u "retweet") = none := by
    rw [slotStep_lookup_other (stateKey_ne (by decide)),
      slotStep_lookup_other (stateKey_ne (by decide))]
    exact h3
  rw [slotStep_prime h1 n cp c.original, slotStep_prime h2a n cp c.reply,
    slotStep_prime h3a n cp c.retweet]
  rfl

theorem categorySteps_filter_type_original {u : String} {s : StateMap}
    (h : lookupKey s (stateKey u "original") = none) (n : String)
    (cp : Option String) (c : Classified) :
    (categorySteps u n cp c s).2.filter
      (Notification.isNewTweetOfType "original") = [] := by
  simp only [categorySteps]
  rw [List.filter_append, List.filter_append,
    slotStep_prime h n cp c.original,
    slotStep_filter_type_ne (by decide) u n cp c.reply,
    slotStep_filter_type_ne (by decide) u n cp c.retweet]
  rfl

theorem categorySteps_filter_type_reply {u : String} {s : StateMap}
    (h : lookupKey s (stateKey u "reply") = none) (n : String)
    (cp : Option String) (c : Classified) :
    (categorySteps u n cp c s).2.filter
      (Notification.isNewTweetOfType "reply") = [] := by
  simp only [categorySteps]
  have h2a : lookupKey (slotStep u n cp "original" c.original s).1
      (stateKey u "reply") = none := by
    rw [slotStep_lookup_other (stateKey_ne (by decide))]
    exact h
  rw [List.filter_append, List.filter_append,
    slotStep_filter_type_ne (by decide) u n cp c.original,
    slotStep_prime h2a n cp c.reply,
    slotStep_filter_type_ne (by decide) u n cp c.retweet]
  rfl

theorem categorySteps_filter_type_retweet {u : String} {s : StateMap}
    (h : lookupKey s (stateKey u "retweet") = none) (n : String)
    (cp : Option String) (c : Classified) :
    (categorySteps u n cp c s).2.filter
      (Notification.isNewTweetOfType "retweet") = [] := by
  simp only [categorySteps]
  have h3a : lookupKey
      (slotStep u n cp "reply" c.reply
        (slotStep u n cp "original" c.original s).1).1
      (stateKey u "retweet") = none := by
    rw [slotStep_lookup_other (stateKey_ne (by decide)),
      slotStep_lookup_other (stateKey_ne (by decide))]
    exact h
  rw [List.filter_append, List.filter_append,
    slotStep_filter_type_ne (by decide) u n cp c.original,
    slotStep_filter_type_ne (by decide) u n cp c.reply,
    slotStep_prime h3a n cp c.retweet]
  rfl

theorem check_silent_when_absent {u : String} {s : StateMap}
    (hp : lookupKey s (stateKey u "pinned") = none)
    (h1 : lookupKey s (stateKey u "original") = none)
    (h2 : lookupKey s (stateKey u "reply") = none)
    (h3 : lookupKey s (stateKey u "retweet") = none)
    (ur : Option Profile) (tr : Option (List Tweet)) :
    (check_new_tweets u ur tr s).2 = [] := by
  cases ur with
  | none =>
    cases tr with
    | none => rfl
    | some tweets =>
      cases he : tweets.isEmpty with
      | true => rw [check_tweets_empty u none s he]
      | false =>
        rw [check_none_some u he s]
        exact categorySteps_prime h1 h2 h3 u none _
  | some p =>
    have hprime := pinnedStep_prime hp (p.name.getD u) p.pinnedTweetIds.head?
    cases tr with
    | none =>
      rw [check_tweets_fail]
      rw [show (match some p with
        | some p => pinnedStep u (p.name.getD u) p.pinnedTweetIds.head? s
        | none => ((s, []) : StateMap × List Notification)) =
          pinnedStep u (p.name.getD u) p.pinnedTweetIds.head? s from rfl, hprime]
    | some tweets =>
      cases he : tweets.isEmpty with
      | true =>
        rw [check_tweets_empty u (some p) s he]
        show (pinnedStep u (p.name.getD u) p.pinnedTweetIds.head? s).2 = []
        rw [hprime]
      | false =>
        rw [check_some_some u p he s, hprime]
        have h1a : lookupKey (setKey s (stateKey u "pinned") p.pinnedTweetIds.head?)
            (stateKey u "original") = none := by
          rw [lookupKey_setKey_ne (stateKey_ne (by decide))]
          exact h1
        have h2a : lookupKey (setKey s (stateKey u "pinned") p.pinnedTweetIds.head?)
            (stateKey u "reply") = none := by
          rw [lookupKey_setKey_ne (stateKey_ne (by decide))]
          exact h2
        have h3a : lookupKey (setKey s (stateKey u "pinned") p.pinnedTweetIds.head?)
            (stateKey u "retweet") = none := by
          rw [lookupKey_setKey_ne (stateKey_ne (by decide))]
          exact h3
        have hc := categorySteps_prime h1a h2a h3a (p.name.getD u)
          p.pinnedTweetIds.head? (classify_tweets tweets)
        simpa using hc

/-! ### Lemmas about the delete_user state cleanup -/

theorem isPrefixOf_self_append (l1 l2 : List Char) :
    l1.isPrefixOf (l1 ++ l2) = true := by
  induction l1 with
  | nil => simp [List.isPrefixOf]
  | cons a as ih => simp [List.isPrefixOf, ih]

theorem strStartsWith_stateKey (u slot : String) :
    strStartsWith (stateKey u slot) (u ++ "_") = true := by
  show (u ++ "_").data.isPrefixOf ((u ++ "_") ++ slot).data = true
  rw [String.data_append]
  exact isPrefixOf_self_append _ _

theorem lookupKey_delete (u : String) (s : StateMap) (k : String) :
    lookupKey (delete_user u s) k =
      if strStartsWith k (u ++ "_") = true then none else lookupKey s k := by
  induction s with
  | nil =>
    cases hs : strStartsWith k (u ++ "_") <;> simp [delete_user, lookupKey, hs]
  | cons kv rest ih =>
    obtain ⟨k', v'⟩ := kv
    simp only [delete_user] at ih ⊢
    by_cases hk : k' = k
    · subst hk
      cases hs : strStartsWith k' (u ++ "_") <;>
        simp [List.filter_cons, lookupKey, hs, ih]
    · cases hs : strStartsWith k' (u ++ "_") <;>
        simp [List.filter_cons, lookupKey, hs, hk, ih]

/-! ### Sample data used by the concrete witnesses -/

def sampleOriginal : Tweet := ⟨"101", false, false, "an original post", "url101", "ts101"⟩

def sampleReply : Tweet := ⟨"102", true, false, "a reply post", "url102", "ts102"⟩

def sampleRetweet : Tweet := ⟨"103", false, true, "a repost", "url103", "ts103"⟩

def envAccept : Nat → AttemptResult := fun _ => AttemptResult.response true

def envReject : Nat → AttemptResult := fun _ => AttemptResult.response false

/-! ### The claims -/

/-- C6: classify_tweets selects, for each of the three categories, the
first item in fetch order matching that category (where the membership
tests are exactly the branch conditions of the source if/elif chain),
yields absent for a category with no match, and once all three slots
are filled the remaining items cannot change the result (the loop
breaks); it is a pure function by construction. -/
theorem claim_c6_classifier (l1 l2 : List Tweet) :
    ((classify_tweets l1).original =
        l1.find? (fun t => !t.hasRetweetedTweet && !t.isReply)) ∧
    ((classify_tweets l1).reply =
        l1.find? (fun t => !t.hasRetweetedTweet && t.isReply)) ∧
    ((classify_tweets l1).retweet = l1.find? (fun t => t.hasRetweetedTweet)) ∧
    ((classify_tweets l1).original.isSome ∧ (classify_tweets l1).reply.isSome ∧
        (classify_tweets l1).retweet.isSome →
      classify_tweets (l1 ++ l2) = classify_tweets l1) := by
  refine ⟨classify_tweets_original l1, classify_tweets_reply l1,
    classify_tweets_retweet l1, ?_⟩
  rintro ⟨h1, h2, h3⟩
  rw [classify_tweets_original] at h1
  rw [classify_tweets_reply] at h2
  rw [classify_tweets_retweet] at h3
  apply classified_eq_of_comps
  · rw [classify_tweets_original, classify_tweets_original, List.find?_append]
    obtain ⟨a, ha⟩ := Option.isSome_iff_exists.mp h1
    rw [ha]
    rfl
  · rw [classify_tweets_reply, classify_tweets_reply, List.find?_append]
    obtain ⟨a, ha⟩ := Option.isSome_iff_exists.mp h2
    rw [ha]
    rfl
  · rw [classify_tweets_retweet, classify_tweets_retweet, List.find?_append]
    obtain ⟨a, ha⟩ := Option.isSome_iff_exists.mp h3
    rw [ha]
    rfl

/-- Witness for C6 at a concrete input: a list filling all three
slots, followed by one further item that does not change the result. -/
theorem claim_c6_classifier_witness :
    ((classify_tweets [sampleOriginal, sampleReply, sampleRetweet]).original.isSome ∧
      (classify_tweets [sampleOriginal, sampleReply, sampleRetweet]).reply.isSome ∧
      (classify_tweets [sampleOriginal, sampleReply, sampleRetweet]).retweet.isSome) ∧
    classify_tweets ([sampleOriginal, sampleReply, sampleRetweet] ++
        [⟨"104", false, false, "later", "url104", "ts104"⟩]) =
      classify_tweets [sampleOriginal, sampleReply, sampleRetweet] :=
  ⟨by decide,
    (claim_c6_classifier [sampleOriginal, sampleReply, sampleRetweet]
      [⟨"104", false, false, "later", "url104", "ts104"⟩]).2.2.2 (by decide)⟩

/-- C9: classification is total, with a fixed precedence for items
whose category flags overlap: a retweeted_tweet marker wins over the
isReply flag, an item with only the isReply flag lands in the reply
slot, and an item with neither flag lands in the original slot. -/
theorem claim_c9_precedence (t : Tweet) :
    classify_tweets [t] =
      if t.hasRetweetedTweet then ⟨none, none, some t⟩
      else if t.isReply then ⟨none, some t, none⟩
      else ⟨some t, none, none⟩ := by
  by_cases h1 : t.hasRetweetedTweet <;> by_cases h2 : t.isReply <;>
    simp [classify_tweets, classifyAux, h1, h2]

/-- C5: running check_new_tweets twice on the same fetched responses
is idempotent; the second pass leaves the store untouched and emits no
notification at all. -/
theorem claim_c5_idempotent (u : String) (ur : Option Profile)
    (tr : Option (List Tweet)) (s0 : StateMap) :
    check_new_tweets u ur tr (check_new_tweets u ur tr s0).1 =
      ((check_new_tweets u ur tr s0).1, []) := by
  apply check_noop
  · intro p hp
    subst hp
    exact check_lookup_pinned u p tr s0
  · intro tweets t htr he hcl
    subst htr
    exact check_lookup_original u ur he s0 hcl
  · intro tweets t htr he hcl
    subst htr
    exact check_lookup_reply u ur he s0 hcl
  · intro tweets t htr he hcl
    subst htr
    exact check_lookup_retweet u ur he s0 hcl

/-- C7 counterexample: save_state is not an atomic replace; executing
only the truncation step of its operation sequence (a crash between
open("w") and the completed json.dump) leaves an empty file even
though a prior valid snapshot existed. -/
theorem claim_c7_counterexample :
    runFsOps (some "old-snapshot") ((save_state_ops "new-snapshot").take 1) =
        some "" ∧
      ("old-snapshot" : String) ≠ "" := by
  constructor
  · rfl
  · decide

/-- C7 amended: save_state writes the full serialized mapping by
truncating the state file in place and rewriting it; a completed call
leaves the full snapshot, but a crash after truncation and before the
write leaves an empty file regardless of any prior snapshot. -/
theorem claim_c7_amended (prior : Option String) (serialized : String) :
    runFsOps prior (save_state_ops serialized) = some serialized ∧
      runFsOps prior ((save_state_ops serialized).take 1) = some "" :=
  ⟨rfl, rfl⟩

/-- C8: send_telegram returns false with no network attempt when
either credential is missing (the result is independent of the
network environment), and a parsed reply that rejects the message
returns false immediately with no further retries; the function is
Bool-valued and total, every exception path of the source being
caught inside the loop. -/
theorem claim_c8_send_telegram (botToken chatId : String)
    (env env2 : Nat → AttemptResult) :
    ((botToken = "" ∨ chatId = "") →
      send_telegram botToken chatId env = false ∧
        send_telegram botToken chatId env = send_telegram botToken chatId env2) ∧
    (env 0 = AttemptResult.response false →
      send_telegram botToken chatId env = false) := by
  constructor
  · intro h
    have hb : (botToken = "" || chatId = "") = true := by
      rcases h with h | h <;> simp [h]
    simp [send_telegram, hb]
  · intro h
    by_cases hb : (botToken = "" || chatId = "") = true
    · simp [send_telegram, hb]
    · simp only [send_telegram, hb, if_false, Bool.false_eq_true]
      show sendLoop env 0 3 = false
      rw [show (3 : Nat) = 2 + 1 from rfl]
      unfold sendLoop
      rw [h]

/-- Witness for C8: missing bot token yields false under an
always-accepting network, and an explicit rejection yields false with
full credentials. -/
theorem claim_c8_send_telegram_witness :
    ((("" : String) = "" ∨ ("chat" : String) = "") ∧
      send_telegram "" "chat" envAccept = false) ∧
    (envReject 0 = AttemptResult.response false ∧
      send_telegram "token" "chat" envReject = false) :=
  ⟨⟨Or.inl rfl,
      ((claim_c8_send_telegram "" "chat" envAccept envAccept).1 (Or.inl rfl)).1⟩,
    ⟨rfl, (claim_c8_send_telegram "token" "chat" envReject envReject).2 rfl⟩⟩

/-- C2 counterexample: the pinned step of check_new_tweets runs before
the tweets fetch is examined, so a cycle whose recent-items fetch
fails can still mutate state and emit a notification: with a stored
pinned id 1, a successful profile fetch reporting pinned id 2 and a
failed tweets fetch, the pinned slot is updated and a pinned-changed
message is sent, refuting no-notification-and-no-state-mutation. -/
theorem claim_c2_counterexample :
    check_new_tweets "alice" (some ⟨some "Alice", ["2"]⟩) none
        [(stateKey "alice" "pinned", some "1")] =
      ([(stateKey "alice" "pinned", some "2")],
        [Notification.pinnedChanged "alice" "Alice" "2"]) ∧
      check_new_tweets "alice" (some ⟨some "Alice", ["2"]⟩) none
          [(stateKey "alice" "pinned", some "1")] ≠
        ([(stateKey "alice" "pinned", some "1")], []) := by
  constructor
  · decide
  · decide

/-- C2 amended: if fetching the recent items fails, the rest of the
processing for the account is skipped in that cycle: every category
slot is left unchanged and no new-item notification is emitted; the
whole outcome equals that of the pinned-slot step alone, which may
already have updated the pinned slot and emitted a pinned
notification. -/
theorem claim_c2_amended (u : String) (ur : Option Profile) (s : StateMap)
    (c : String) (hc : c = "original" ∨ c = "reply" ∨ c = "retweet") :
    lookupKey (check_new_tweets u ur none s).1 (stateKey u c) =
        lookupKey s (stateKey u c) ∧
      (check_new_tweets u ur none s).2.filter (·.isNewTweetNotif) = [] ∧
      check_new_tweets u ur none s =
        (match ur with
          | some p => pinnedStep u (p.name.getD u) p.pinnedTweetIds.head? s
          | none => (s, [])) := by
  refine ⟨?_, ?_, check_tweets_fail u ur s⟩
  · cases ur with
    | none => rfl
    | some p =>
      rw [check_tweets_fail]
      refine pinnedStep_lookup_other ?_ (p.name.getD u) p.pinnedTweetIds.head? s
      rcases hc with h | h | h <;> subst h <;> exact stateKey_ne (by decide)
  · cases ur with
    | none => rfl
    | some p =>
      rw [check_tweets_fail]
      exact pinnedStep_filter_newTweet u (p.name.getD u) p.pinnedTweetIds.head? s

/-- Witness for C2 amended, with a failed tweets fetch, a failed
profile fetch and a populated original slot. -/
theorem claim_c2_amended_witness :
    (("original" : String) = "original" ∨ ("original" : String) = "reply" ∨
        ("original" : String) = "retweet") ∧
      (lookupKey (check_new_tweets "alice" none none
            [(stateKey "alice" "original", some "7")]).1
          (stateKey "alice" "original") =
        lookupKey [(stateKey "alice" "original", some "7")]
          (stateKey "alice" "original") ∧
      (check_new_tweets "alice" none none
          [(stateKey "alice" "original", some "7")]).2.filter
        (·.isNewTweetNotif) = [] ∧
      check_new_tweets "alice" none none [(stateKey "alice" "original", some "7")] =
        ([(stateKey "alice" "original", some "7")], [])) :=
  ⟨Or.inl rfl,
    claim_c2_amended "alice" none [(stateKey "alice" "original", some "7")]
      "original" (Or.inl rfl)⟩

/-- C3 counterexample: delete_user removes every key that starts with
the removed handle followed by an underscore, which also hits entries
of a different monitored account whose handle extends the removed one:
deleting account bob erases the original-slot entry of account bob_x. -/
theorem claim_c3_counterexample :
    lookupKey (delete_user "bob" [(stateKey "bob_x" "original", some "1")])
        (stateKey "bob_x" "original") = none ∧
      lookupKey [(stateKey "bob_x" "original", some "1")]
        (stateKey "bob_x" "original") = some (some "1") ∧
      ("bob_x" : String) ≠ "bob" := by
  refine ⟨by decide, by decide, by decide⟩

/-- C3 amended: removing an account deletes every state entry whose
key starts with the handle followed by an underscore; this covers all
four of its slot entries, and an entry keyed to any other account is
unchanged provided its key does not start with that prefix (handles
such as bob and bob_x collide); after the removal all slots of the
account are absent again, so the next check primes silently, emitting
zero notifications. -/
theorem claim_c3_amended (u : String) (s : StateMap) :
    (∀ c, (c = "original" ∨ c = "reply" ∨ c = "retweet" ∨ c = "pinned") →
      lookupKey (delete_user u s) (stateKey u c) = none) ∧
    (∀ k, strStartsWith k (u ++ "_") = false →
      lookupKey (delete_user u s) k = lookupKey s k) ∧
    (∀ ur tr, (check_new_tweets u ur tr (delete_user u s)).2 = []) := by
  refine ⟨?_, ?_, ?_⟩
  · intro c _
    rw [lookupKey_delete]
    simp [strStartsWith_stateKey]
  · intro k hk
    rw [lookupKey_delete]
    simp [hk]
  · intro ur tr
    exact check_silent_when_absent
      (by rw [lookupKey_delete]; simp [strStartsWith_stateKey])
      (by rw [lookupKey_delete]; simp [strStartsWith_stateKey])
      (by rw [lookupKey_delete]; simp [strStartsWith_stateKey])
      (by rw [lookupKey_delete]; simp [strStartsWith_stateKey]) ur tr

/-- Witness for C3 amended: deleting alice erases her original slot,
leaves an entry of bob alone, and a subsequent sweep for alice over
the cleaned state emits no notification. -/
theorem claim_c3_amended_witness :
    lookupKey (delete_user "alice"
        [(stateKey "alice" "original", some "7"), (stateKey "bob" "pinned", some "9")])
      (stateKey "alice" "original") = none ∧
    lookupKey (delete_user "alice"
        [(stateKey "alice" "original", some "7"), (stateKey "bob" "pinned", some "9")])
      (stateKey "bob" "pinned") =
      lookupKey [(stateKey "alice" "original", some "7"),
        (stateKey "bob" "pinned", some "9")] (stateKey "bob" "pinned") ∧
    (check_new_tweets "alice" (some ⟨some "Alice", ["5"]⟩) (some [sampleOriginal])
      (delete_user "alice"
        [(stateKey "alice" "original", some "7"),
          (stateKey "bob" "pinned", some "9")])).2 = [] :=
  ⟨(claim_c3_amended "alice"
      [(stateKey "alice" "original", some "7"), (stateKey "bob" "pinned", some "9")]).1
      "original" (Or.inl rfl),
    (claim_c3_amended "alice"
      [(stateKey "alice" "original", some "7"), (stateKey "bob" "pinned", some "9")]).2.1
      (stateKey "bob" "pinned") (by decide),
    (claim_c3_amended "alice"
      [(stateKey "alice" "original", some "7"), (stateKey "bob" "pinned", some "9")]).2.2
      (some ⟨some "Alice", ["5"]⟩) (some [sampleOriginal])⟩

/-- C4: priming is silent; for a pinned slot whose key is absent from
the store, the first observed pinned id (a list head that may be
none) is stored with no pinned notification, and for a category slot
whose key is absent, the first observed item id is stored with no
new-item notification for that category. -/
theorem claim_c4_priming_silent (u : String) (p : Profile) (tweets : List Tweet)
    (s0 : StateMap) (c : String) (t : Tweet) (he : tweets.isEmpty = false) :
    (lookupKey s0 (stateKey u "pinned") = none →
      lookupKey (check_new_tweets u (some p) (some tweets) s0).1
          (stateKey u "pinned") = some p.pinnedTweetIds.head? ∧
        (check_new_tweets u (some p) (some tweets) s0).2.filter
          (·.isPinnedNotif) = []) ∧
    ((c = "original" ∨ c = "reply" ∨ c = "retweet") →
      (classify_tweets tweets).slot c = some t →
      lookupKey s0 (stateKey u c) = none →
      lookupKey (check_new_tweets u (some p) (some tweets) s0).1 (stateKey u c) =
          some (some t.id) ∧
        (check_new_tweets u (some p) (some tweets) s0).2.filter
          (Notification.isNewTweetOfType c) = []) := by
  constructor
  · intro hp
    refine ⟨check_lookup_pinned u p (some tweets) s0, ?_⟩
    rw [check_some_some u p he s0, pinnedStep_prime hp]
    simp [List.filter_append, categorySteps_filter_pinnedNotif]
  · intro hc hcl hkey
    rcases hc with h | h | h <;> subst h <;> simp [Classified.slot] at hcl
    · refine ⟨check_lookup_original u (some p) he s0 hcl, ?_⟩
      have hkey2 : lookupKey
          (pinnedStep u (p.name.getD u) p.pinnedTweetIds.head? s0).1
          (stateKey u "original") = none := by
        rw [pinnedStep_lookup_other (stateKey_ne (by decide))]
        exact hkey
      rw [check_some_some u p he s0]
      simp [List.filter_append, pinnedStep_filter_type,
        categorySteps_filter_type_original hkey2]
    · refine ⟨check_lookup_reply u (some p) he s0 hcl, ?_⟩
      have hkey2 : lookupKey
          (pinnedStep u (p.name.getD u) p.pinnedTweetIds.head? s0).1
          (stateKey u "reply") = none := by
        rw [pinnedStep_lookup_other (stateKey_ne (by decide))]
        exact hkey
      rw [check_some_some u p he s0]
      simp [List.filter_append, pinnedStep_filter_type,
        categorySteps_filter_type_reply hkey2]
    · refine ⟨check_lookup_retweet u (some p) he s0 hcl, ?_⟩
      have hkey2 : lookupKey
          (pinnedStep u (p.name.getD u) p.pinnedTweetIds.head? s0).1
          (stateKey u "retweet") = none := by
        rw [pinnedStep_lookup_other (stateKey_ne (by decide))]
        exact hkey
      rw [check_some_some u p he s0]
      simp [List.filter_append, pinnedStep_filter_type,
        categorySteps_filter_type_retweet hkey2]

/-- Witness for C4: an empty store primes both the pinned slot and the
original slot silently on the first sweep. -/
theorem claim_c4_priming_silent_witness :
    (lookupKey (check_new_tweets "alice" (some ⟨some "Alice", ["9"]⟩)
          (some [sampleOriginal]) []).1 (stateKey "alice" "pinned") =
        some (some "9") ∧
      (check_new_tweets "alice" (some ⟨some "Alice", ["9"]⟩)
          (some [sampleOriginal]) []).2.filter (·.isPinnedNotif) = []) ∧
    (lookupKey (check_new_tweets "alice" (some ⟨some "Alice", ["9"]⟩)
          (some [sampleOriginal]) []).1 (stateKey "alice" "original") =
        some (some sampleOriginal.id) ∧
      (check_new_tweets "alice" (some ⟨some "Alice", ["9"]⟩)
          (some [sampleOriginal]) []).2.filter
        (Notification.isNewTweetOfType "original") = []) :=
  ⟨(claim_c4_priming_silent "alice" ⟨some "Alice", ["9"]⟩ [sampleOriginal] []
      "original" sampleOriginal (by decide)).1 rfl,
    (claim_c4_priming_silent "alice" ⟨some "Alice", ["9"]⟩ [sampleOriginal] []
      "original" sampleOriginal (by decide)).2 (Or.inl rfl) (by decide) rfl⟩

/-- C10: when the profile fetch is not successful, the pinned slot is
untouched and no pinned notification is emitted, yet the recent items
are still processed with the current pinned id treated as none, so a
changed category slot emits a normal new-item notification even if
its item happens to be the account pinned item. -/
theorem claim_c10_profile_failure (u : String) (tweets : List Tweet)
    (s0 : StateMap) (c : String) (t : Tweet) (w : Option String)
    (hc : c = "original" ∨ c = "reply" ∨ c = "retweet")
    (he : tweets.isEmpty = false)
    (hcl : (classify_tweets tweets).slot c = some t)
    (hw : lookupKey s0 (stateKey u c) = some w) (hwne : w ≠ some t.id) :
    lookupKey (check_new_tweets u none (some tweets) s0).1 (stateKey u "pinned") =
        lookupKey s0 (stateKey u "pinned") ∧
      (check_new_tweets u none (some tweets) s0).2.filter (·.isPinnedNotif) = [] ∧
      Notification.newTweet u u c t.id (t.text.take 200) t.url t.createdAt ∈
        (check_new_tweets u none (some tweets) s0).2 := by
  rw [check_none_some u he s0]
  refine ⟨?_, ?_, ?_⟩
  · exact categorySteps_lookup_other (stateKey_ne (by decide))
      (stateKey_ne (by decide)) (stateKey_ne (by decide)) u none
      (classify_tweets tweets) s0
  · exact categorySteps_filter_pinnedNotif u u none (classify_tweets tweets) s0
  · rcases hc with h | h | h <;> subst h <;> simp [Classified.slot] at hcl
    · simp only [categorySteps]
      rw [hcl, slotStep_notify hw hwne (fun hcon => Option.noConfusion hcon) u]
      simp
    · have hw2 : lookupKey
          (slotStep u u none "original" (classify_tweets tweets).original s0).1
          (stateKey u "reply") = some w := by
        rw [slotStep_lookup_other (stateKey_ne (by decide))]
        exact hw
      simp only [categorySteps]
      rw [hcl, slotStep_notify hw2 hwne (fun hcon => Option.noConfusion hcon) u]
      simp
    · have hw2 : lookupKey
          (slotStep u u none "reply" (classify_tweets tweets).reply
            (slotStep u u none "original" (classify_tweets tweets).original s0).1).1
          (stateKey u "retweet") = some w := by
        rw [slotStep_lookup_other (stateKey_ne (by decide)),
          slotStep_lookup_other (stateKey_ne (by decide))]
        exact hw
      simp only [categorySteps]
      rw [hcl, slotStep_notify hw2 hwne (fun hcon => Option.noConfusion hcon) u]
      simp

/-- Witness for C10: with a failed profile fetch, a stored original id
1 and a fetched original item 101, the pinned slot stays as it was, no
pinned notification fires, and the new-item notification for 101 is
emitted. -/
theorem claim_c10_profile_failure_witness :
    lookupKey (check_new_tweets "alice" none (some [sampleOriginal])
        [(stateKey "alice" "original", some "1")]).1 (stateKey "alice" "pinned") =
      lookupKey [(stateKey "alice" "original", some "1")] (stateKey "alice" "pinned") ∧
    (check_new_tweets "alice" none (some [sampleOriginal])
        [(stateKey "alice" "original", some "1")]).2.filter (·.isPinnedNotif) = [] ∧
    Notification.newTweet "alice" "alice" "original" sampleOriginal.id
        (sampleOriginal.text.take 200) sampleOriginal.url sampleOriginal.createdAt ∈
      (check_new_tweets "alice" none (some [sampleOriginal])
        [(stateKey "alice" "original", some "1")]).2 :=
  claim_c10_profile_failure "alice" [sampleOriginal]
    [(stateKey "alice" "original", some "1")] "original" sampleOriginal (some "1")
    (Or.inl rfl) (by decide) (by decide) (by decide) (by decide)

/-- C1: when the profile fetch succeeds and reports a new non-empty
pinned id that differs from the stored pinned slot, and the item
classified into a category slot in the same sweep carries exactly that
id, then among the notifications of the sweep exactly one references
that item, namely the pinned-changed one, while the category slot
still ends up holding the new id with no new-item notification for
it. -/
theorem claim_c1_pinned_category_coordination (u : String) (p : Profile)
    (P : String) (oldv : Option String) (tweets : List Tweet) (s0 : StateMap)
    (c : String) (t : Tweet)
    (hP : p.pinnedTweetIds.head? = some P) (hPne : P ≠ "")
    (hold : lookupKey s0 (stateKey u "pinned") = some oldv)
    (holdne : oldv ≠ some P) (he : tweets.isEmpty = false)
    (hc : c = "original" ∨ c = "reply" ∨ c = "retweet")
    (hcl : (classify_tweets tweets).slot c = some t) (hid : t.id = P) :
    (check_new_tweets u (some p) (some tweets) s0).2.filter (·.mentionsId P) =
        [Notification.pinnedChanged u (p.name.getD u) P] ∧
      lookupKey (check_new_tweets u (some p) (some tweets) s0).1 (stateKey u c) =
        some (some P) := by
  constructor
  · rw [check_some_some u p he s0, hP,
      pinnedStep_changed hold holdne hPne (p.name.getD u)]
    show ([Notification.pinnedChanged u (p.name.getD u) P] ++
        (categorySteps u (p.name.getD u) (some P) (classify_tweets tweets)
          (setKey s0 (stateKey u "pinned") (some P))).2).filter
        (·.mentionsId P) = [Notification.pinnedChanged u (p.name.getD u) P]
    rw [List.filter_append,
      categorySteps_filter_mentions rfl u (p.name.getD u) (classify_tweets tweets)
        (setKey s0 (stateKey u "pinned") (some P))]
    simp [Notification.mentionsId]
  · rw [← hid]
    rcases hc with h | h | h <;> subst h <;> simp [Classified.slot] at hcl
    · exact check_lookup_original u (some p) he s0 hcl
    · exact check_lookup_reply u (some p) he s0 hcl
    · exact check_lookup_retweet u (some p) he s0 hcl

/-- Witness for C1: pinned changes from 1 to 101 while the newest
original item is also 101; only the pinned-changed message mentions
101 and the original slot is updated to 101 silently. -/
theorem claim_c1_pinned_category_coordination_witness :
    (check_new_tweets "alice" (some ⟨some "Alice", ["101"]⟩)
        (some [sampleOriginal])
        [(stateKey "alice" "pinned", some "1"),
          (stateKey "alice" "original", some "2")]).2.filter
      (·.mentionsId "101") =
        [Notification.pinnedChanged "alice" "Alice" "101"] ∧
      lookupKey (check_new_tweets "alice" (some ⟨some "Alice", ["101"]⟩)
          (some [sampleOriginal])
          [(stateKey "alice" "pinned", some "1"),
            (stateKey "alice" "original", some "2")]).1
        (stateKey "alice" "original") = some (some "101") :=
  claim_c1_pinned_category_coordination "alice" ⟨some "Alice", ["101"]⟩ "101"
    (some "1") [sampleOriginal]
    [(stateKey "alice" "pinned", some "1"), (stateKey "alice" "original", some "2")]
    "original" sampleOriginal rfl (by decide) (by decide) (by decide) (by decide)
    (Or.inl rfl) (by decide) rfl
